import Mathlib

/-!
Shallow embedding of the CloudMart demo backend (src/main.py): data model,
token service and the API route handlers, together with theorems settling
the specification claims.

Modelling conventions:
* The Cosmos document store is a `DBState` value threaded explicitly;
  `configured` mirrors whether the container handles were initialised
  (`init_cosmos` leaves them `None` when the endpoint/key env vars are unset).
* A store call that raises is modelled by an explicit `Option StoreExc`
  input to each handler; `none` means the queries succeed, `some e` means
  the first store call raises `e` (a Cosmos HTTP error or any other
  exception), which is what the surrounding `try/except` observes.
* Nondeterministic effects (`uuid.uuid4()`, `datetime.utcnow()`) are
  passed in as parameters.
* Prices are represented in integer cents (e.g. 19999 for 199.99), which
  is faithful for every claim here since no price arithmetic occurs.
-/

set_option linter.unusedVariables false

/-- Fixed user identifier used as the storage key for all cart/order state
(`DEFAULT_USER = "demo_user"` in main.py). -/
def DEFAULT_USER : String := "demo_user"

def DEMO_USERNAME : String := "demo"

def DEMO_PASSWORD : String := "demo123"

def JWT_SECRET_KEY : String := "cloudmart-dev-secret-key"

def ACCESS_TOKEN_EXPIRE_MINUTES : Nat := 60

/-- A product document. `image` is `Option` because `get_cart` reads it with
`product.get("image", "🛒")`; the other fields are always present in this
system's documents. -/
structure Product where
  id : String
  name : String
  description : String
  category : String
  price : Int
  stock : Nat
  image : Option String
deriving DecidableEq, Repr

/-- A cart document: one user/product/quantity line (`add_to_cart` shape). -/
structure CartEntry where
  id : String
  user_id : String
  product_id : String
  quantity : Int
deriving DecidableEq, Repr

/-- One order line item: product id and quantity only (no price snapshot). -/
structure OrderLine where
  product_id : String
  quantity : Int
deriving DecidableEq, Repr

/-- An order document as built by `create_order`. -/
structure Order where
  id : String
  user_id : String
  items : List OrderLine
  status : String
  created_at : String
deriving DecidableEq, Repr

/-- The document store: the three collections plus whether `init_cosmos`
actually initialised the container handles. -/
structure DBState where
  configured : Bool
  products : List Product
  cart : List CartEntry
  orders : List Order
deriving DecidableEq, Repr

/-- An exception raised by a store call: either a
`CosmosHttpResponseError` or any other `Exception`, with its `str(e)`. -/
inductive StoreExc where
  | cosmosHttp (msg : String)
  | other (msg : String)
deriving DecidableEq, Repr

/-- `str(e)` for a raised store exception. -/
def StoreExc.msg : StoreExc → String
  | .cosmosHttp m => m
  | .other m => m

/-- Request body of POST /api/v1/cart/items (`class CartItem(BaseModel)`;
pydantic `int` accepts any integer, `quantity` defaults to 1). -/
structure CartItem where
  product_id : String
  quantity : Int := 1
deriving DecidableEq, Repr

/-- Result of a write-path handler: the confirmation `{"message": ...}` or
the `{"error": ...}` payload its `except` branch returns. -/
inductive ApiMsg where
  | message (s : String)
  | error (s : String)
deriving DecidableEq, Repr

/-- Enriched cart line returned by GET /api/v1/cart. -/
structure EnrichedLine where
  id : String
  name : String
  price : Int
  quantity : Int
  image : String
  category : String
deriving DecidableEq, Repr

/-- What GET /api/v1/cart returns: a list of lines, or the `{"error": ...}`
object produced by its `except` branch. -/
inductive CartResponse where
  | items (xs : List EnrichedLine)
  | errorObj (msg : String)
deriving DecidableEq, Repr

/-- Result of GET /api/v1/products/id: a product, an `HTTPException`
(status, detail), or an exception the handler does not catch. -/
inductive GetProductResult where
  | ok (p : Product)
  | httpError (status : Nat) (detail : String)
  | unhandled (msg : String)
deriving DecidableEq, Repr

/-- Result of POST /api/v1/orders: the order document or an error payload. -/
inductive OrderResult where
  | ok (o : Order)
  | error (msg : String)
deriving DecidableEq, Repr

/-- GET /api/v1/products — `list_products(category)`. -/
def list_products (st : DBState) (category : Option String) (exc : Option StoreExc) :
    List Product :=
  if !st.configured then []
  else
    match exc with
    | some _ => []
    | none =>
      match category with
      | some c => st.products.filter (fun p => p.category = c)
      | none => st.products

/-- Helper for Cosmos `CONTAINS`: is `q` a (case-sensitive) prefix of `s`? -/
def strLeads : List Char → List Char → Bool
  | [], _ => true
  | _ :: _, [] => false
  | a :: as, b :: bs => a = b && strLeads as bs

/-- Helper for Cosmos `CONTAINS`: does `s` contain `q` as a substring? -/
def subContains (q : List Char) : List Char → Bool
  | [] => strLeads q []
  | b :: bs => strLeads q (b :: bs) || subContains q bs

/-- Cosmos `CONTAINS(s, q)`: case-sensitive substring containment. -/
def strContains (s q : String) : Bool :=
  subContains q.data s.data

/-- GET /api/v1/search — `search_products(q)`. -/
def search_products (st : DBState) (q : String) (exc : Option StoreExc) :
    List Product :=
  if !st.configured then []
  else
    match exc with
    | some _ => []
    | none =>
      st.products.filter (fun p => strContains p.name q || strContains p.category q)

/-- GET /api/v1/products/id — `get_product(product_id)`. The 404 raised
for a missing product is a FastAPI `HTTPException`, which the
`except exceptions.CosmosHttpResponseError` clause does not intercept;
a non-Cosmos exception from the query propagates uncaught. -/
def get_product (st : DBState) (product_id : String) (exc : Option StoreExc) :
    GetProductResult :=
  if !st.configured then .httpError 503 "Database not available"
  else
    match exc with
    | some (.cosmosHttp _) => .httpError 404 "Product not found"
    | some (.other m) => .unhandled m
    | none =>
      match st.products.filter (fun p => p.id = product_id) with
      | p :: _ => .ok p
      | [] => .httpError 404 "Product not found"

/-- GET /api/v1/categories — `get_categories()` (`SELECT DISTINCT`). -/
def get_categories (st : DBState) (exc : Option StoreExc) : List String :=
  if !st.configured then []
  else
    match exc with
    | some _ => []
    | none => (st.products.map (fun p => p.category)).dedup

/-- GET /api/v1/cart — `get_cart(current_user)`. Queries cart lines for
`DEFAULT_USER` (not `current_user`), joins each with its product, skipping
lines whose product no longer exists; its `except Exception` branch returns
an `{"error": str(e)}` object. -/
def get_cart (st : DBState) (current_user : String) (exc : Option StoreExc) :
    CartResponse :=
  if !st.configured then .items []
  else
    match exc with
    | some e => .errorObj e.msg
    | none =>
      let items := st.cart.filter (fun c => c.user_id = DEFAULT_USER)
      .items (items.filterMap (fun item =>
        match st.products.filter (fun p => p.id = item.product_id) with
        | [] => none
        | product :: _ =>
          some { id := product.id
                 name := product.name
                 price := product.price
                 quantity := item.quantity
                 image := product.image.getD "🛒"
                 category := product.category }))

/-- POST /api/v1/cart/items — `add_to_cart(item, current_user)`. Looks up
an existing (DEFAULT_USER, product_id) line; if found, overwrites its
quantity via `upsert_item` (replace-by-id), otherwise `create_item`s a new
line with a fresh uuid (`newId`). No validation is applied to
`item.quantity`. -/
def add_to_cart (st : DBState) (item : CartItem) (current_user : String)
    (newId : String) (exc : Option StoreExc) : ApiMsg × DBState :=
  if !st.configured then (.error "Database not available", st)
  else
    match exc with
    | some e => (.error e.msg, st)
    | none =>
      let existing := st.cart.filter
        (fun c => c.user_id = DEFAULT_USER && c.product_id = item.product_id)
      match existing with
      | cart_item :: _ =>
        let updated := { cart_item with quantity := item.quantity }
        (.message "Saved to Cosmos DB",
         { st with cart := st.cart.map (fun c => if c.id = cart_item.id then updated else c) })
      | [] =>
        let cart_item : CartEntry :=
          { id := newId, user_id := DEFAULT_USER
            product_id := item.product_id, quantity := item.quantity }
        (.message "Saved to Cosmos DB", { st with cart := st.cart ++ [cart_item] })

/-- DELETE /api/v1/cart/items/product_id — `remove_from_cart`. Queries all
(DEFAULT_USER, product_id) lines and deletes each by id. -/
def remove_from_cart (st : DBState) (product_id : String) (current_user : String)
    (exc : Option StoreExc) : ApiMsg × DBState :=
  if !st.configured then (.error "Database not available", st)
  else
    match exc with
    | some e => (.error e.msg, st)
    | none =>
      let items := st.cart.filter
        (fun c => c.user_id = DEFAULT_USER && c.product_id = product_id)
      (.message "Removed from Cosmos DB",
       { st with cart := st.cart.filter (fun c => !(items.map CartEntry.id).contains c.id) })

/-- POST /api/v1/orders — `create_order(current_user)`. Reads all cart
lines for `DEFAULT_USER`, builds an order (product id + quantity per line,
a fresh uuid `newId`, `utcnow` ISO string `nowIso`, status "confirmed"),
persists it, then deletes each consumed cart line by id. There is no
empty-cart check. -/
def create_order (st : DBState) (current_user : String) (newId : String)
    (nowIso : String) (exc : Option StoreExc) : OrderResult × DBState :=
  if !st.configured then (.error "Database not available", st)
  else
    match exc with
    | some e => (.error e.msg, st)
    | none =>
      let cart_items := st.cart.filter (fun c => c.user_id = DEFAULT_USER)
      let order : Order :=
        { id := newId
          user_id := DEFAULT_USER
          items := cart_items.map (fun i => { product_id := i.product_id, quantity := i.quantity })
          status := "confirmed"
          created_at := nowIso }
      (.ok order,
       { st with
           orders := st.orders ++ [order]
           cart := st.cart.filter (fun c => !(cart_items.map CartEntry.id).contains c.id) })

/-- GET /api/v1/orders — `get_orders(current_user)`. -/
def get_orders (st : DBState) (current_user : String) (exc : Option StoreExc) :
    List Order :=
  if !st.configured then []
  else
    match exc with
    | some _ => []
    | none => st.orders.filter (fun o => o.user_id = DEFAULT_USER)

/-- The JWT claim set used by this service: `sub` (may be absent) and an
absolute expiry in epoch seconds. -/
structure Claims where
  sub : Option String
  exp : Nat
deriving DecidableEq, Repr

/-- Abstract HMAC over the claim set: the signature a correct signer with
`secret` attaches to `c`. Modelled as the (injective) pair so that a
signature verifies iff it was produced over exactly these claims with
exactly this secret. -/
def macSign (c : Claims) (secret : String) : Claims × String :=
  (c, secret)

/-- A structurally well-formed JWT: its claim set and its signature value. -/
structure Token where
  claims : Claims
  sig : Claims × String
deriving DecidableEq, Repr

/-- `jwt.encode(claims, secret, algorithm="HS256")`. -/
def jwt_encode (c : Claims) (secret : String) : Token :=
  { claims := c, sig := macSign c secret }

/-- `jwt.decode(token, secret, algorithms=["HS256"])`: rejects a bad
signature, and rejects an expired token (python-jose raises
`ExpiredSignatureError ⊂ JWTError` when `exp < now`). `none` is the
raised `JWTError`. -/
def jwt_decode (t : Token) (secret : String) (now : Nat) : Option Claims :=
  if t.sig = macSign t.claims secret then
    if t.claims.exp < now then none else some t.claims
  else none

/-- `create_access_token(data, expires_delta=None)`: copies the claims,
overwrites `exp` with now + 60 minutes (or the supplied delta, in
seconds), signs with `JWT_SECRET_KEY`. -/
def create_access_token (data : Claims) (now : Nat) (expires_delta : Option Nat) :
    Token :=
  let expire := now + expires_delta.getD (ACCESS_TOKEN_EXPIRE_MINUTES * 60)
  jwt_encode { data with exp := expire } JWT_SECRET_KEY

/-- The credential text after "Bearer ": either a string that does not
parse as a JWT at all (malformed ⇒ `JWTError`), or a structurally
well-formed token. -/
inductive Cred where
  | malformed
  | token (t : Token)
deriving DecidableEq, Repr

/-- The Authorization header as `get_current_user` sees it: absent, present
but not starting with "Bearer ", or "Bearer " followed by a credential. -/
inductive RawAuth where
  | noHeader
  | notBearer (s : String)
  | bearer (c : Cred)
deriving DecidableEq, Repr

/-- A FastAPI `HTTPException`: status code and detail string. -/
structure HTTPError where
  status : Nat
  detail : String
deriving DecidableEq, Repr

/-- `get_current_user(authorization)`: the auth dependency of every
protected route. `now` is the clock `jwt.decode` checks expiry against. -/
def get_current_user (authorization : RawAuth) (now : Nat) :
    Except HTTPError String :=
  match authorization with
  | .noHeader => .error ⟨401, "Not authenticated"⟩
  | .notBearer _ => .error ⟨401, "Not authenticated"⟩
  | .bearer .malformed => .error ⟨401, "Invalid or expired token"⟩
  | .bearer (.token t) =>
    match jwt_decode t JWT_SECRET_KEY now with
    | none => .error ⟨401, "Invalid or expired token"⟩
    | some payload =>
      match payload.sub with
      | none => .error ⟨401, "Invalid token payload"⟩
      | some username => .ok username

/-- The fixed demo catalog inserted by `seed_products()` (prices in cents). -/
def seed_products_list : List Product :=
  [ { id := "1", name := "Wireless Headphones Pro"
      description := "Premium noise-cancelling wireless headphones with 30hr battery"
      category := "Electronics", price := 19999, stock := 50, image := some "🎧" },
    { id := "2", name := "Smart Watch Elite"
      description := "Advanced fitness tracking smartwatch with GPS"
      category := "Electronics", price := 29999, stock := 30, image := some "⌚" },
    { id := "3", name := "Running Shoes X1"
      description := "Lightweight breathable running shoes"
      category := "Sports", price := 8999, stock := 100, image := some "👟" },
    { id := "4", name := "Laptop Backpack Pro"
      description := "Water-resistant 15.6 inch laptop backpack"
      category := "Accessories", price := 4999, stock := 75, image := some "🎒" },
    { id := "5", name := "Coffee Maker Deluxe"
      description := "12-cup programmable coffee maker"
      category := "Home", price := 7999, stock := 40, image := some "☕" },
    { id := "6", name := "Yoga Mat Premium"
      description := "Extra thick eco-friendly yoga mat"
      category := "Sports", price := 3599, stock := 60, image := some "🧘" },
    { id := "7", name := "Bluetooth Speaker"
      description := "Portable waterproof bluetooth speaker"
      category := "Electronics", price := 5999, stock := 45, image := some "🔊" },
    { id := "8", name := "Desk Lamp LED"
      description := "Adjustable LED desk lamp with USB port"
      category := "Home", price := 2999, stock := 80, image := some "💡" } ]

/-- A store state holding exactly the seeded catalog, empty cart and no
orders, with the container handles initialised. -/
def seededState : DBState :=
  { configured := true, products := seed_products_list, cart := [], orders := [] }

/-- A configured store with an unconfigured twin, for 503 scenarios. -/
def unconfiguredState : DBState :=
  { configured := false, products := [], cart := [], orders := [] }

/- ------------------------------------------------------------------ -/
/- Theorems                                                            -/
/- ------------------------------------------------------------------ -/

/-- C9: every cart/order handler keys its queries on `DEFAULT_USER`, so its
result (response and post-state) does not depend on which authenticated
username the request's token carried. -/
theorem handlers_ignore_principal
    (st : DBState) (u1 u2 : String) (exc : Option StoreExc)
    (item : CartItem) (pid newId nowIso : String) :
    get_cart st u1 exc = get_cart st u2 exc ∧
    add_to_cart st item u1 newId exc = add_to_cart st item u2 newId exc ∧
    remove_from_cart st pid u1 exc = remove_from_cart st pid u2 exc ∧
    create_order st u1 newId nowIso exc = create_order st u2 newId nowIso exc ∧
    get_orders st u1 exc = get_orders st u2 exc :=
  ⟨rfl, rfl, rfl, rfl, rfl⟩

/-- C1 counterexample: with an empty cart, `create_order` is not rejected
with an EmptyCart error — it returns `.ok` on an order with zero line
items and persists that order. -/
theorem create_order_empty_cart_not_rejected :
    create_order seededState "demo" "order-1" "2026-10-12T00:00:00" none =
      (.ok { id := "order-1", user_id := DEFAULT_USER, items := [],
             status := "confirmed", created_at := "2026-10-12T00:00:00" },
       { seededState with
           orders := [{ id := "order-1", user_id := DEFAULT_USER, items := [],
                        status := "confirmed", created_at := "2026-10-12T00:00:00" }] }) :=
  rfl

/-- C1 (amended): for every configured store whose cart holds no entries
for the shared user, `create_order` succeeds, returning and persisting an
order with zero line items (status "confirmed"); no EmptyCart rejection
exists in the code. -/
theorem create_order_empty_cart_creates_empty_order
    (st : DBState) (u newId nowIso : String)
    (hconf : st.configured = true)
    (hempty : st.cart.filter (fun c => c.user_id = DEFAULT_USER) = []) :
    create_order st u newId nowIso none =
      (.ok { id := newId, user_id := DEFAULT_USER, items := [],
             status := "confirmed", created_at := nowIso },
       { st with
           orders := st.orders ++
             [{ id := newId, user_id := DEFAULT_USER, items := [],
                status := "confirmed", created_at := nowIso }] }) := by
  simp only [create_order, hconf, Bool.not_true, Bool.false_eq_true, if_false, hempty,
    List.map_nil, List.contains_nil, Bool.not_false, List.filter_true]

theorem create_order_empty_cart_creates_empty_order_witness :
    create_order seededState "u2" "order-2" "2026-10-12T01:00:00" none =
      (.ok { id := "order-2", user_id := DEFAULT_USER, items := [],
             status := "confirmed", created_at := "2026-10-12T01:00:00" },
       { seededState with
           orders := [{ id := "order-2", user_id := DEFAULT_USER, items := [],
                        status := "confirmed", created_at := "2026-10-12T01:00:00" }] }) :=
  create_order_empty_cart_creates_empty_order seededState "u2" "order-2"
    "2026-10-12T01:00:00" rfl rfl

/-- C2 counterexample: on a store exception, GET /api/v1/cart does not
degrade to an empty sequence — its `except` branch returns the
`{"error": str(e)}` payload. -/
theorem get_cart_store_error_returns_error_payload :
    get_cart seededState "demo" (some (.other "connection reset")) =
      .errorObj "connection reset" ∧
    get_cart seededState "demo" (some (.other "connection reset")) ≠ .items [] := by
  exact ⟨rfl, by decide⟩

/-- C2 (amended): on a store exception, the read handlers `list_products`,
`search_products`, `get_categories` and `get_orders` degrade to the empty
sequence, but `get_cart` instead surfaces the `{"error": str(e)}` payload
(it returns `[]` only when the store is unconfigured). -/
theorem read_handlers_on_store_error
    (st : DBState) (cat : Option String) (q u1 u2 : String) (e : StoreExc)
    (hconf : st.configured = true) :
    list_products st cat (some e) = [] ∧
    search_products st q (some e) = [] ∧
    get_categories st (some e) = [] ∧
    get_orders st u1 (some e) = [] ∧
    get_cart st u2 (some e) = .errorObj e.msg := by
  simp [list_products, search_products, get_categories, get_orders, get_cart, hconf]

theorem read_handlers_on_store_error_witness :
    list_products seededState (some "Electronics") (some (.other "boom")) = [] ∧
    search_products seededState "Watch" (some (.other "boom")) = [] ∧
    get_categories seededState (some (.other "boom")) = [] ∧
    get_orders seededState "demo" (some (.other "boom")) = [] ∧
    get_cart seededState "demo" (some (.other "boom")) = .errorObj "boom" :=
  read_handlers_on_store_error seededState (some "Electronics") "Watch" "demo" "demo"
    (.other "boom") rfl

/-- C3 counterexample: `add_to_cart` performs no quantity validation — a
request with quantity 0 succeeds and a cart entry with quantity 0 is
created and stored. -/
theorem add_to_cart_stores_zero_quantity :
    add_to_cart seededState { product_id := "1", quantity := 0 } "demo" "cid-1" none =
      (.message "Saved to Cosmos DB",
       { seededState with
           cart := [{ id := "cid-1", user_id := DEFAULT_USER,
                      product_id := "1", quantity := 0 }] }) :=
  rfl

/-- C3 (amended): `add_to_cart` accepts any integer quantity, including
zero and negatives: for every configured store with no existing
(DEFAULT_USER, product) entry, the call succeeds and stores a new entry
carrying exactly the requested quantity, unvalidated. -/
theorem add_to_cart_accepts_any_quantity
    (st : DBState) (pid u newId : String) (q : Int)
    (hconf : st.configured = true)
    (hnone : st.cart.filter
      (fun c => c.user_id = DEFAULT_USER && c.product_id = pid) = []) :
    add_to_cart st { product_id := pid, quantity := q } u newId none =
      (.message "Saved to Cosmos DB",
       { st with cart := st.cart ++ [{ id := newId, user_id := DEFAULT_USER,
                                       product_id := pid, quantity := q }] }) := by
  simp only [add_to_cart, hconf, Bool.not_true, Bool.false_eq_true, if_false, hnone]

theorem add_to_cart_accepts_any_quantity_witness :
    add_to_cart seededState { product_id := "3", quantity := -5 } "demo" "cid-2" none =
      (.message "Saved to Cosmos DB",
       { seededState with
           cart := [{ id := "cid-2", user_id := DEFAULT_USER,
                      product_id := "3", quantity := -5 }] }) :=
  add_to_cart_accepts_any_quantity seededState "3" "demo" "cid-2" (-5) rfl rfl

/-- C7 counterexample: with the store configured but the query failing
(a `CosmosHttpResponseError`, e.g. the store unreachable), `get_product`
does not fail with 503 — its `except` clause raises 404 "Product not
found". -/
theorem get_product_unreachable_store_is_404 :
    get_product seededState "1" (some (.cosmosHttp "Service unreachable")) =
      .httpError 404 "Product not found" ∧
    get_product seededState "1" (some (.cosmosHttp "Service unreachable")) ≠
      .httpError 503 "Database not available" := by
  exact ⟨rfl, by decide⟩

/-- C7 (amended): `get_product` fails with 503 exactly when the store is
not configured; when the store is configured, a missing id yields 404, a
`CosmosHttpResponseError` from the query also yields 404 (not 503), and
every seeded id returns exactly that product's attributes. -/
theorem get_product_cases (st : DBState) (pid m : String) :
    (st.configured = false →
        get_product st pid none = .httpError 503 "Database not available") ∧
    (st.configured = true → st.products.filter (fun p => p.id = pid) = [] →
        get_product st pid none = .httpError 404 "Product not found") ∧
    (st.configured = true →
        get_product st pid (some (.cosmosHttp m)) = .httpError 404 "Product not found") ∧
    (∀ p ∈ seed_products_list, get_product seededState p.id none = .ok p) := by
  refine ⟨fun h => by simp [get_product, h], fun h hnone => ?_, fun h => by simp [get_product, h], ?_⟩
  · simp only [get_product, h, Bool.not_true, Bool.false_eq_true, if_false, hnone]
  · decide

theorem get_product_cases_witness :
    get_product unconfiguredState "1" none = .httpError 503 "Database not available" ∧
    seededState.products.filter (fun p => p.id = "9") = [] ∧
    get_product seededState "9" none = .httpError 404 "Product not found" ∧
    get_product seededState "9" (some (.cosmosHttp "timeout")) = .httpError 404 "Product not found" ∧
    "2" ∈ seed_products_list.map Product.id ∧
    get_product seededState "2" none = .ok (seed_products_list.get ⟨1, by decide⟩) :=
  ⟨(get_product_cases unconfiguredState "1" "x").1 rfl,
   by decide,
   (get_product_cases seededState "9" "x").2.1 rfl (by decide),
   (get_product_cases seededState "9" "timeout").2.2.1 rfl,
   by decide,
   (get_product_cases seededState "2" "x").2.2.2
     (seed_products_list.get ⟨1, by decide⟩) (by decide)⟩

/-- C8: `remove_from_cart` succeeds with the confirmation message, leaves
no (DEFAULT_USER, product_id) entry in the cart, and when no entry matched
in the first place the whole store state is unchanged (a no-op success). -/
theorem remove_from_cart_spec (st : DBState) (pid u : String)
    (hconf : st.configured = true) :
    (remove_from_cart st pid u none).1 = .message "Removed from Cosmos DB" ∧
    (∀ c ∈ (remove_from_cart st pid u none).2.cart,
        ¬(c.user_id = DEFAULT_USER ∧ c.product_id = pid)) ∧
    (st.cart.filter (fun c => c.user_id = DEFAULT_USER && c.product_id = pid) = [] →
        (remove_from_cart st pid u none).2 = st) := by
  refine ⟨by simp [remove_from_cart, hconf], fun c hc ⟨hu, hp⟩ => ?_, fun hnone => ?_⟩
  · simp only [remove_from_cart, hconf, Bool.not_true, Bool.false_eq_true, if_false,
      List.mem_filter] at hc
    obtain ⟨hmem, hkeep⟩ := hc
    simp only [Bool.not_eq_true', List.contains_eq_any_beq, List.any_eq_false,
      List.mem_map, List.mem_filter, beq_eq_false_iff_ne, ne_eq] at hkeep
    exact hkeep c.id ⟨c, ⟨hmem, by simp [hu, hp]⟩, rfl⟩ (beq_self_eq_true c.id)
  · simp only [remove_from_cart, hconf, Bool.not_true, Bool.false_eq_true, if_false, hnone,
      List.map_nil, List.contains_nil, Bool.not_false, List.filter_true]
    rw [← hconf]

theorem remove_from_cart_spec_witness :
    (remove_from_cart seededState "7" "demo" none).1 = .message "Removed from Cosmos DB" ∧
    (∀ c ∈ (remove_from_cart seededState "7" "demo" none).2.cart,
        ¬(c.user_id = DEFAULT_USER ∧ c.product_id = "7")) ∧
    (seededState.cart.filter
        (fun c => c.user_id = DEFAULT_USER && c.product_id = "7") = [] →
      (remove_from_cart seededState "7" "demo" none).2 = seededState) :=
  remove_from_cart_spec seededState "7" "demo" rfl

/-- C6: a token issued for username `u` verifies at any time not past its
now + 60-minute expiry and yields exactly `u`; verification fails with a
401 `HTTPException` when the expiry has passed, when the signature is
tampered, when the token is malformed, and when the signed claim set lacks
a `sub` username. -/
theorem token_issue_verify (u : String) (now nowOk nowLate : Nat)
    (s : Claims × String)
    (hOk : nowOk ≤ now + ACCESS_TOKEN_EXPIRE_MINUTES * 60)
    (hLate : now + ACCESS_TOKEN_EXPIRE_MINUTES * 60 < nowLate)
    (hTamper : s ≠ macSign
      (create_access_token { sub := some u, exp := 0 } now none).claims JWT_SECRET_KEY) :
    (get_current_user
        (.bearer (.token (create_access_token { sub := some u, exp := 0 } now none)))
        nowOk = .ok u) ∧
    (get_current_user
        (.bearer (.token (create_access_token { sub := some u, exp := 0 } now none)))
        nowLate = .error ⟨401, "Invalid or expired token"⟩) ∧
    (get_current_user
        (.bearer (.token
          { create_access_token { sub := some u, exp := 0 } now none with sig := s }))
        nowOk = .error ⟨401, "Invalid or expired token"⟩) ∧
    (get_current_user (.bearer .malformed) nowOk =
        .error ⟨401, "Invalid or expired token"⟩) ∧
    (get_current_user
        (.bearer (.token (jwt_encode { sub := none, exp := now + 3600 } JWT_SECRET_KEY)))
        nowOk = .error ⟨401, "Invalid token payload"⟩) := by
  have h60 : ACCESS_TOKEN_EXPIRE_MINUTES * 60 = 3600 := by decide
  rw [h60] at hOk hLate
  refine ⟨?_, ?_, ?_, rfl, ?_⟩
  · simp [get_current_user, jwt_decode, create_access_token, jwt_encode, h60,
      Nat.not_lt.mpr hOk]
  · simp [get_current_user, jwt_decode, create_access_token, jwt_encode, h60, hLate]
  · simp only [get_current_user, jwt_decode]
    rw [if_neg]
    exact fun h => hTamper h
  · simp [get_current_user, jwt_decode, jwt_encode, Nat.not_lt.mpr hOk]

theorem token_issue_verify_witness :
    (10 ≤ 0 + ACCESS_TOKEN_EXPIRE_MINUTES * 60) ∧
    (0 + ACCESS_TOKEN_EXPIRE_MINUTES * 60 < 4000) ∧
    (get_current_user
        (.bearer (.token (create_access_token { sub := some "demo", exp := 0 } 0 none)))
        10 = .ok "demo") ∧
    (get_current_user
        (.bearer (.token (create_access_token { sub := some "demo", exp := 0 } 0 none)))
        4000 = .error ⟨401, "Invalid or expired token"⟩) ∧
    (get_current_user
        (.bearer (.token
          { create_access_token { sub := some "demo", exp := 0 } 0 none with
              sig := ({ sub := some "demo", exp := 3600 }, "wrong-secret") }))
        10 = .error ⟨401, "Invalid or expired token"⟩) ∧
    (get_current_user (.bearer .malformed) 10 =
        .error ⟨401, "Invalid or expired token"⟩) ∧
    (get_current_user
        (.bearer (.token (jwt_encode { sub := none, exp := 0 + 3600 } JWT_SECRET_KEY)))
        10 = .error ⟨401, "Invalid token payload"⟩) :=
  ⟨by decide, by decide,
   (token_issue_verify "demo" 0 10 4000 ({ sub := some "demo", exp := 3600 }, "wrong-secret")
      (by decide) (by decide) (by decide)).1,
   (token_issue_verify "demo" 0 10 4000 ({ sub := some "demo", exp := 3600 }, "wrong-secret")
      (by decide) (by decide) (by decide)).2.1,
   (token_issue_verify "demo" 0 10 4000 ({ sub := some "demo", exp := 3600 }, "wrong-secret")
      (by decide) (by decide) (by decide)).2.2.1,
   (token_issue_verify "demo" 0 10 4000 ({ sub := some "demo", exp := 3600 }, "wrong-secret")
      (by decide) (by decide) (by decide)).2.2.2.1,
   (token_issue_verify "demo" 0 10 4000 ({ sub := some "demo", exp := 3600 }, "wrong-secret")
      (by decide) (by decide) (by decide)).2.2.2.2⟩

/-- Deleting, by id, every cart line that matched the DEFAULT_USER query
leaves no DEFAULT_USER line behind. -/
theorem filter_delete_by_id_clears (l : List CartEntry) :
    (l.filter (fun c =>
        !((l.filter (fun c => c.user_id = DEFAULT_USER)).map CartEntry.id).contains c.id)).filter
      (fun c => c.user_id = DEFAULT_USER) = [] := by
  rw [List.filter_eq_nil_iff]
  intro c hc
  simp only [List.mem_filter, Bool.not_eq_true', List.contains_eq_any_beq, List.any_eq_false,
    List.mem_map, List.mem_filter, beq_eq_false_iff_ne, ne_eq, decide_eq_true_eq] at hc
  obtain ⟨hmem, hkeep⟩ := hc
  simp only [decide_eq_true_eq]
  intro huser
  exact hkeep c.id ⟨c, ⟨hmem, huser⟩, rfl⟩ (beq_self_eq_true c.id)

/-- C5: on a configured store whose cart holds N ≥ 1 lines for the shared
user, `create_order` returns an order with exactly those N line items
(product id and quantity only), identity `newId`, timestamp `nowIso` and
status "confirmed"; the order is appended to the orders collection, and a
subsequent `get_cart` returns the empty sequence. -/
theorem create_order_nonempty_spec
    (st : DBState) (u newId nowIso : String)
    (hconf : st.configured = true)
    (hne : st.cart.filter (fun c => c.user_id = DEFAULT_USER) ≠ []) :
    ∃ o : Order,
      (create_order st u newId nowIso none).1 = .ok o ∧
      o.items = (st.cart.filter (fun c => c.user_id = DEFAULT_USER)).map
        (fun i => { product_id := i.product_id, quantity := i.quantity }) ∧
      o.items.length = (st.cart.filter (fun c => c.user_id = DEFAULT_USER)).length ∧
      o.id = newId ∧ o.user_id = DEFAULT_USER ∧
      o.status = "confirmed" ∧ o.created_at = nowIso ∧
      (create_order st u newId nowIso none).2.orders = st.orders ++ [o] ∧
      get_cart (create_order st u newId nowIso none).2 u none = .items [] := by
  refine ⟨{ id := newId, user_id := DEFAULT_USER,
            items := (st.cart.filter (fun c => c.user_id = DEFAULT_USER)).map
              (fun i => { product_id := i.product_id, quantity := i.quantity }),
            status := "confirmed", created_at := nowIso },
    ?_, rfl, by simp, rfl, rfl, rfl, rfl, ?_, ?_⟩
  · simp only [create_order, hconf, Bool.not_true, Bool.false_eq_true, if_false]
  · simp only [create_order, hconf, Bool.not_true, Bool.false_eq_true, if_false]
  · simp only [create_order, get_cart, hconf, Bool.not_true, Bool.false_eq_true, if_false,
      filter_delete_by_id_clears, List.filterMap_nil]

/-- A concrete two-line cart used to witness C5. -/
def twoLineCartState : DBState :=
  { configured := true, products := seed_products_list,
    cart := [{ id := "cl-1", user_id := DEFAULT_USER, product_id := "1", quantity := 2 },
             { id := "cl-2", user_id := DEFAULT_USER, product_id := "3", quantity := 1 }],
    orders := [] }

theorem create_order_nonempty_spec_witness :
    twoLineCartState.cart.filter (fun c => c.user_id = DEFAULT_USER) ≠ [] ∧
    (∃ o : Order,
      (create_order twoLineCartState "demo" "ord-9" "2026-10-12T02:00:00" none).1 = .ok o ∧
      o.items = (twoLineCartState.cart.filter (fun c => c.user_id = DEFAULT_USER)).map
        (fun i => { product_id := i.product_id, quantity := i.quantity }) ∧
      o.items.length =
        (twoLineCartState.cart.filter (fun c => c.user_id = DEFAULT_USER)).length ∧
      o.id = "ord-9" ∧ o.user_id = DEFAULT_USER ∧
      o.status = "confirmed" ∧ o.created_at = "2026-10-12T02:00:00" ∧
      (create_order twoLineCartState "demo" "ord-9" "2026-10-12T02:00:00" none).2.orders =
        twoLineCartState.orders ++ [o] ∧
      get_cart (create_order twoLineCartState "demo" "ord-9" "2026-10-12T02:00:00" none).2
        "demo" none = .items []) :=
  ⟨by decide,
   create_order_nonempty_spec twoLineCartState "demo" "ord-9" "2026-10-12T02:00:00"
     rfl (by decide)⟩

/-- C10: every enriched line returned by `get_cart` carries, in its `id`
field, the referenced product's id (equal to the cart entry's
`product_id`), never the cart entry's own storage id. -/
theorem get_cart_line_id_is_product_id
    (st : DBState) (u : String) (lines : List EnrichedLine)
    (h : get_cart st u none = .items lines) :
    ∀ l ∈ lines, ∃ e ∈ st.cart, ∃ p ∈ st.products,
      e.user_id = DEFAULT_USER ∧ p.id = e.product_id ∧ l.id = e.product_id ∧
      (e.id ≠ e.product_id → l.id ≠ e.id) := by
  intro l hl
  by_cases hc : st.configured
  · simp only [get_cart, hc, Bool.not_true, Bool.false_eq_true, if_false] at h
    have hlines : lines = (st.cart.filter (fun c => c.user_id = DEFAULT_USER)).filterMap
        (fun item =>
          match st.products.filter (fun p => p.id = item.product_id) with
          | [] => none
          | product :: _ =>
            some { id := product.id, name := product.name, price := product.price,
                   quantity := item.quantity, image := product.image.getD "🛒",
                   category := product.category }) := by
      injection h.symm
    subst hlines
    obtain ⟨e, he, hfe⟩ := List.mem_filterMap.mp hl
    obtain ⟨hemem, heuser⟩ := List.mem_filter.mp he
    cases hp : st.products.filter (fun p => p.id = e.product_id) with
    | nil => rw [hp] at hfe; exact absurd hfe (by simp)
    | cons product rest =>
      rw [hp] at hfe
      have hpmem : product ∈ st.products.filter (fun p => p.id = e.product_id) := by
        rw [hp]; exact List.mem_cons_self product rest
      obtain ⟨hpmem', hpid⟩ := List.mem_filter.mp hpmem
      simp only [decide_eq_true_eq] at hpid heuser
      have hlid : l.id = product.id := by
        cases hfe; rfl
      refine ⟨e, hemem, product, hpmem', heuser, hpid, hlid.trans hpid, fun hne hcontra => ?_⟩
      exact hne ((hcontra.symm.trans (hlid.trans hpid)).symm).symm
  · have hcf : st.configured = false := Bool.eq_false_iff.mpr hc
    simp only [get_cart, hcf, Bool.not_false, if_true] at h
    have : lines = [] := by injection h.symm
    subst this
    exact absurd hl (List.not_mem_nil l)

/-- A one-product, one-cart-line state used to witness C10. -/
def oneLineCartState : DBState :=
  { configured := true, products := seed_products_list,
    cart := [{ id := "storage-id-77", user_id := DEFAULT_USER, product_id := "5", quantity := 4 }],
    orders := [] }

/-- The single enriched line `get_cart` returns on `oneLineCartState`. -/
def oneLineResult : EnrichedLine :=
  { id := "5", name := "Coffee Maker Deluxe", price := 7999, quantity := 4,
    image := "☕", category := "Home" }

theorem get_cart_line_id_is_product_id_witness :
    ∃ e ∈ oneLineCartState.cart, ∃ p ∈ oneLineCartState.products,
      e.user_id = DEFAULT_USER ∧ p.id = e.product_id ∧
      oneLineResult.id = e.product_id ∧
      (e.id ≠ e.product_id → oneLineResult.id ≠ e.id) :=
  get_cart_line_id_is_product_id oneLineCartState "demo" [oneLineResult]
    (by decide) oneLineResult (by decide)

/-- Replacing entries by id leaves the list of ids unchanged when the
replacement carries the replaced id. -/
theorem upsert_map_id (l : List CartEntry) (e' : CartEntry) (i : String)
    (hid : e'.id = i) :
    (l.map (fun c => if c.id = i then e' else c)).map CartEntry.id =
      l.map CartEntry.id := by
  rw [List.map_map]
  refine List.map_congr_left ?_
  intro a ha
  by_cases h : a.id = i
  · simp [Function.comp, h, hid]
  · simp [Function.comp, h]

/-- Cosmos `upsert_item` (replace-by-id) of a `p`-matching entry carrying
the id of the unique existing `p`-match rewrites the `p`-filter to exactly
the replacement. -/
theorem upsert_filter (l : List CartEntry) (p : CartEntry → Bool) (e e' : CartEntry)
    (hnd : (l.map CartEntry.id).Nodup)
    (hf : l.filter p = [e])
    (hid : e'.id = e.id) (hp : p e' = true) :
    (l.map (fun c => if c.id = e.id then e' else c)).filter p = [e'] := by
  have hemem : e ∈ l :=
    (List.mem_filter.mp (by rw [hf]; exact List.mem_singleton_self e)).1
  have hpe : p e = true :=
    (List.mem_filter.mp (by rw [hf]; exact List.mem_singleton_self e)).2
  rw [List.filter_map]
  have hcongr : l.filter (p ∘ fun c => if c.id = e.id then e' else c) = l.filter p := by
    refine List.filter_congr ?_
    intro a ha
    by_cases h : a.id = e.id
    · have haeq : a = e := List.inj_on_of_nodup_map hnd ha hemem h
      subst haeq
      simp [Function.comp, h, hp, hpe]
    · simp [Function.comp, h]
  rw [hcongr, hf]
  simp [hid]

/-- C4: on a configured store satisfying the storage invariants (unique
document ids, at most one cart line per (user, product) pair, fresh uuid
for the first insert), calling `add_to_cart` for product `pid` with
quantity `q1` and then `q2` (no removal in between) leaves exactly one
cart line for (DEFAULT_USER, pid), and its quantity is `q2` — the second
call overwrites, it does not sum. -/
theorem add_to_cart_overwrites
    (st : DBState) (u1 u2 pid id1 id2 : String) (q1 q2 : Int)
    (hconf : st.configured = true)
    (hnd : (st.cart.map CartEntry.id).Nodup)
    (hfresh : id1 ∉ st.cart.map CartEntry.id)
    (hatmost : (st.cart.filter
      (fun c => c.user_id = DEFAULT_USER && c.product_id = pid)).length ≤ 1) :
    ∃ e : CartEntry,
      ((add_to_cart (add_to_cart st { product_id := pid, quantity := q1 } u1 id1 none).2
          { product_id := pid, quantity := q2 } u2 id2 none).2.cart.filter
        (fun c => c.user_id = DEFAULT_USER && c.product_id = pid)) = [e] ∧
      e.user_id = DEFAULT_USER ∧ e.product_id = pid ∧ e.quantity = q2 := by
  cases hf : st.cart.filter (fun c => c.user_id = DEFAULT_USER && c.product_id = pid) with
  | nil =>
    set n1 : CartEntry :=
      { id := id1, user_id := DEFAULT_USER, product_id := pid, quantity := q1 } with hn1
    set n2 : CartEntry :=
      { id := id1, user_id := DEFAULT_USER, product_id := pid, quantity := q2 } with hn2
    have hstep1 : (add_to_cart st { product_id := pid, quantity := q1 } u1 id1 none).2 =
        { st with cart := st.cart ++ [n1] } := by
      simp only [add_to_cart, hconf, Bool.not_true, Bool.false_eq_true, if_false, hf, hn1]
    rw [hstep1]
    have hf1 : (st.cart ++ [n1]).filter
          (fun c => c.user_id = DEFAULT_USER && c.product_id = pid) = [n1] := by
      rw [List.filter_append, hf]
      simp [List.filter, hn1]
    have hnd1 : ((st.cart ++ [n1]).map CartEntry.id).Nodup := by
      simp only [List.map_append, List.map_cons, List.map_nil]
      simp [List.nodup_append, hnd, hn1, hfresh]
    have hstep2 : (add_to_cart { st with cart := st.cart ++ [n1] }
        { product_id := pid, quantity := q2 } u2 id2 none).2.cart =
        ((st.cart ++ [n1]).map (fun c => if c.id = n1.id then n2 else c)) := by
      simp only [add_to_cart, hconf, Bool.not_true, Bool.false_eq_true, if_false, hf1,
        hn1, hn2]
    rw [hstep2]
    refine ⟨n2, ?_, rfl, rfl, rfl⟩
    exact upsert_filter _ _ n1 n2 hnd1 hf1 rfl (by simp [hn2])
  | cons e rest =>
    have hrest : rest = [] := by
      rw [hf] at hatmost
      cases rest with
      | nil => rfl
      | cons b bs => simp at hatmost
    subst hrest
    have hemem : e ∈ st.cart.filter
        (fun c => c.user_id = DEFAULT_USER && c.product_id = pid) := by
      rw [hf]; exact List.mem_singleton_self e
    have hpe := (List.mem_filter.mp hemem).2
    have hstep1 : (add_to_cart st { product_id := pid, quantity := q1 } u1 id1 none).2 =
        { st with cart := st.cart.map (fun c => if c.id = e.id then
            { e with quantity := q1 } else c) } := by
      simp only [add_to_cart, hconf, Bool.not_true, Bool.false_eq_true, if_false, hf]
    rw [hstep1]
    have hf1 : (st.cart.map (fun c => if c.id = e.id then
        { e with quantity := q1 } else c)).filter
          (fun c => c.user_id = DEFAULT_USER && c.product_id = pid) =
        [{ e with quantity := q1 }] :=
      upsert_filter st.cart _ e { e with quantity := q1 } hnd hf rfl hpe
    have hnd1 : ((st.cart.map (fun c => if c.id = e.id then
        { e with quantity := q1 } else c)).map CartEntry.id).Nodup := by
      rw [upsert_map_id st.cart { e with quantity := q1 } e.id rfl]
      exact hnd
    have hstep2 : (add_to_cart
        { st with cart := st.cart.map (fun c => if c.id = e.id then
            { e with quantity := q1 } else c) }
        { product_id := pid, quantity := q2 } u2 id2 none).2.cart =
        ((st.cart.map (fun c => if c.id = e.id then { e with quantity := q1 } else c)).map
          (fun c => if c.id = e.id then { e with quantity := q2 } else c)) := by
      simp only [add_to_cart, hconf, Bool.not_true, Bool.false_eq_true, if_false, hf1]
    rw [hstep2]
    refine ⟨{ e with quantity := q2 }, ?_, ?_, ?_, rfl⟩
    · exact upsert_filter _ _ { e with quantity := q1 } { e with quantity := q2 }
        hnd1 hf1 rfl hpe
    · have hp2 := hpe
      simp only [Bool.and_eq_true, decide_eq_true_eq] at hp2
      exact hp2.1
    · have hp2 := hpe
      simp only [Bool.and_eq_true, decide_eq_true_eq] at hp2
      exact hp2.2

theorem add_to_cart_overwrites_witness :
    seededState.configured = true ∧
    (seededState.cart.map CartEntry.id).Nodup ∧
    "cid-7" ∉ seededState.cart.map CartEntry.id ∧
    (seededState.cart.filter
      (fun c => c.user_id = DEFAULT_USER && c.product_id = "2")).length ≤ 1 ∧
    (∃ e : CartEntry,
      ((add_to_cart (add_to_cart seededState { product_id := "2", quantity := 2 }
            "demo" "cid-7" none).2
          { product_id := "2", quantity := 5 } "other-user" "cid-8" none).2.cart.filter
        (fun c => c.user_id = DEFAULT_USER && c.product_id = "2")) = [e] ∧
      e.user_id = DEFAULT_USER ∧ e.product_id = "2" ∧ e.quantity = 5) :=
  ⟨rfl, by decide, by decide, by decide,
   add_to_cart_overwrites seededState "demo" "other-user" "2" "cid-7" "cid-8" 2 5
     rfl (by decide) (by decide) (by decide)⟩
